import Mathlib

/-!
Verification of the ChatPdf repository core (src/main.py) against its
specification.

The shallow embedding below models the pieces of `src/main.py` that the
claims are about:

* the Excerpt Locator (`locate_pages_containing_excerpts`, lines 66-72) and
  highlight generation (`generate_highlight_annotations`, lines 111-126);
* the chat-response handling block (lines 182-210), which parses the model
  output as JSON and updates the Streamlit session state;
* the navigation controls and zoom slider (lines 43 and 221-232).

External collaborators are modelled through their interface contracts:

* a PyMuPDF page is a function from a search string to the list of
  bounding rectangles returned by `page.search_for`; a document is the
  list of its pages in document order (PyMuPDF coordinates are floats,
  modelled here as integers: the claims only copy and subtract them);
* `json.loads` is modelled by its outcome space `RawParse`: a decode
  failure, a non-object value, or an object whose two relevant keys each
  are absent or hold a JSON value (`PyVal`);
* the Streamlit `number_input` and `slider` widgets are modelled by the
  range clamp they enforce on their returned value.

Python truthiness of strings and lists (used at line 70 and line 113 of
the source) is embedded with `isEmpty` tests.
-/

/-- A search-result rectangle as returned by PyMuPDF `page.search_for`:
the fields `x0, y0, x1, y1` of a `fitz.Rect`. -/
structure Rect where
  x0 : Int
  y0 : Int
  x1 : Int
  y1 : Int
deriving DecidableEq, Repr

/-- A page of the opened document, modelled by its text-search primitive
`search_for : String -> list of rectangles` (empty list when no match). -/
def Page : Type := String → List Rect

/-- A page on which no search ever matches; also the out-of-range default
used when indexing the page list. -/
def emptyPage : Page := fun _ => []

/-- Lines 66-72 of src/main.py:

    def locate_pages_containing_excerpts(document, excerpts):
        relevant_pages = []
        for page_num in range(len(document)):
            page = document.load_page(page_num)
            if any(excerpt and page.search_for(excerpt) for excerpt in excerpts):
                relevant_pages.append(page_num)
        return relevant_pages if relevant_pages else [0]

A page number is kept when some excerpt is a non-empty string (Python
truthiness of `excerpt`) whose search on that page returns a non-empty
list (Python truthiness of the result). -/
def locate_pages_containing_excerpts (document : List Page) (excerpts : List String) : List Nat :=
  let relevant_pages := (List.range document.length).filter fun page_num =>
    excerpts.any fun excerpt =>
      !excerpt.isEmpty && !((document.getD page_num emptyPage) excerpt).isEmpty
  if relevant_pages.isEmpty then [0] else relevant_pages

/-- One highlight annotation dictionary as built at lines 118-125 of
src/main.py: `page` is 1-based, the geometry comes from the matched
rectangle, the color is the fixed string "yellow". -/
structure Annot where
  page : Nat
  x : Int
  y : Int
  width : Int
  height : Int
  color : String
deriving DecidableEq, Repr

/-- Lines 111-126 of src/main.py:

    def generate_highlight_annotations(document, excerpts):
        annotations = []
        if document and excerpts:
            for page_num, page in enumerate(document):
                for excerpt in excerpts:
                    if excerpt:
                        for inst in page.search_for(excerpt):
                            annotations.append({...})
        return annotations

`document` may be `None` (modelled by `none`) or an opened document
(modelled by `some pages`).  The Python guard `if document and excerpts`
is falsy when the document is `None`, when it has zero pages (its
truthiness comes from its page count), or when the excerpt list is
empty. -/
def generate_highlight_annotations (document : Option (List Page)) (excerpts : List String) : List Annot :=
  match document with
  | none => []
  | some pages =>
    if pages.isEmpty || excerpts.isEmpty then []
    else
      pages.enum.flatMap fun pe =>
        excerpts.flatMap fun excerpt =>
          if excerpt.isEmpty then []
          else (pe.2 excerpt).map fun inst =>
            { page := pe.1 + 1
              x := inst.x0
              y := inst.y0
              width := inst.x1 - inst.x0
              height := inst.y1 - inst.y0
              color := "yellow" }

/-- A JSON field value as seen by the Python code after `json.loads`:
`null` is Python `None`, `nan` is the float NaN that `json.loads` accepts
for the literal `NaN`, `str` is a JSON string, `other` stands for every
remaining JSON value (number, boolean, array, object) -- values on which
`.split` fails with an `AttributeError` while `pd.notna` is truthy. -/
inductive PyVal where
  | null
  | nan
  | str (s : String)
  | other
deriving DecidableEq, Repr

/-- The outcome space of `json.loads(result["result"])` at line 190 of
src/main.py: a `json.JSONDecodeError`, a successfully parsed value that is
not an object (so the `["answer"]` subscript raises `TypeError`), or an
object from which only the keys `answer` and `sources` are read
(`none` = key absent, raising `KeyError` on access). -/
inductive RawParse where
  | notJson
  | nonObject
  | object (answer : Option PyVal) (sources : Option PyVal)
deriving DecidableEq, Repr

/-- One entry of `st.session_state.chat_history`: a role string and the
content object stored with it (the user turn stores the input string, the
assistant turn stores `parsed_result["answer"]` verbatim). -/
structure ChatTurn where
  role : String
  content : PyVal
deriving DecidableEq, Repr

/-- The slice of `st.session_state` that the chat-submission block of
src/main.py (lines 182-210) reads and writes. -/
structure SessionState where
  chat_history : List ChatTurn
  sources : List String
  chat_occurred : Bool
deriving DecidableEq, Repr

/-- The two error reports of the chat block: `parseError` is the
`except json.JSONDecodeError` branch at line 207 ("There was an error
parsing the response."), `otherError` the generic `except Exception`
branch at line 209. -/
inductive ErrKind where
  | parseError
  | otherError
deriving DecidableEq, Repr

/-- The observable outcome of one chat submission: the updated session
state plus the error report, if any (`none` on success). -/
structure StepResult where
  state : SessionState
  error : Option ErrKind
deriving DecidableEq, Repr

/-!
### The chat-submission block

Lines 182-210 of src/main.py, one chat submission with `raw` the
outcome of `json.loads` on the model output:

    st.session_state.chat_history.append({"role": "user", "content": user_input})
    try:
        result = qa_system.invoke({"query": user_input})
        parsed_result = json.loads(result["result"])
        answer = parsed_result["answer"]
        sources = parsed_result["sources"]
        sources = sources.split(". ") if pd.notna(sources) else []
        st.session_state.chat_history.append({"role": "assistant", "content": answer})
        st.session_state.sources = sources
        st.session_state.chat_occurred = True
    except json.JSONDecodeError: st.error(...)
    except Exception as e: st.error(...)

This block is embedded by `process_chat_submission` below, after its
helper modelling Python string splitting.
-/

/-- Fuel-driven worker for `py_split`: walks the character list; whenever the
separator is a prefix of the remainder the token collected so far (held
reversed in `acc`) is emitted and the separator is skipped.  The fuel is
the length of the walked list, so the fallthrough case is unreachable for
a non-empty separator. -/
def py_split_go (sep : List Char) : Nat → List Char → List Char → List (List Char)
  | _, [], acc => [acc.reverse]
  | fuel + 1, c :: rest, acc =>
    if sep.isPrefixOf (c :: rest) then
      acc.reverse :: py_split_go sep fuel (List.drop sep.length (c :: rest)) []
    else
      py_split_go sep fuel rest (c :: acc)
  | 0, s, acc => [acc.reverse ++ s]

/-- The Python call `s.split(sep)` for a non-empty separator: the list of tokens
between the non-overlapping occurrences of `sep`, scanned left to right;
`"".split(sep)` is `[""]` and separators at the borders produce empty
tokens, exactly as in Python. -/
def py_split (s sep : String) : List String :=
  (py_split_go sep.toList s.toList.length s.toList []).map fun cs => String.mk cs

/-- The user turn is appended before the `try` block, so it survives every
failure.  A `KeyError` on a missing key, a `TypeError` on a non-object
parse, and an `AttributeError` from `.split` on a non-string all land in
the generic handler.  `pd.notna` is `False` exactly on `None` and NaN.
The Python call `sources.split(". ")` is `py_split sources ". "`. -/
def process_chat_submission (state : SessionState) (user_input : String) (raw : RawParse) : StepResult :=
  let state1 : SessionState :=
    { state with chat_history := state.chat_history ++ [{ role := "user", content := .str user_input }] }
  match raw with
  | .notJson => { state := state1, error := some .parseError }
  | .nonObject => { state := state1, error := some .otherError }
  | .object answer sources =>
    match answer with
    | none => { state := state1, error := some .otherError }
    | some a =>
      match sources with
      | none => { state := state1, error := some .otherError }
      | some .null =>
        { state := { state1 with
            chat_history := state1.chat_history ++ [{ role := "assistant", content := a }]
            sources := []
            chat_occurred := true }
          error := none }
      | some .nan =>
        { state := { state1 with
            chat_history := state1.chat_history ++ [{ role := "assistant", content := a }]
            sources := []
            chat_occurred := true }
          error := none }
      | some (.str s) =>
        { state := { state1 with
            chat_history := state1.chat_history ++ [{ role := "assistant", content := a }]
            sources := py_split s ". "
            chat_occurred := true }
          error := none }
      | some .other => { state := state1, error := some .otherError }

/-- The value returned by the `st.number_input` widget at lines 226-229 of
src/main.py: the widget guarantees its result lies in `[lo, hi]`
(`min_value=1, max_value=st.session_state.total_pages`), modelled as the
clamp of the entered value. -/
def number_input_value (entered lo hi : Int) : Int :=
  max lo (min entered hi)

/-- Lines 223-224 of src/main.py:
`if st.button("Previous") and st.session_state.current_page > 0:
current_page -= 1`. -/
def prev_button (current : Int) (clicked : Bool) : Int :=
  if clicked ∧ current > 0 then current - 1 else current

/-- Lines 231-232 of src/main.py:
`if st.button("Next") and st.session_state.current_page <
st.session_state.total_pages - 1: current_page += 1`. -/
def next_button (current total : Int) (clicked : Bool) : Int :=
  if clicked ∧ current < total - 1 then current + 1 else current

/-- One Streamlit rerun of the navigation row (lines 221-232 of
src/main.py): the Previous button may decrement, then the page
`number_input` overwrites `current_page` with its clamped 1-based value
minus 1 (when the user typed nothing, the widget shows and returns the
current value, i.e. `current_page + 1`), then the Next button may
increment. -/
def navigation_step (current total : Int) (prevClicked : Bool) (entered : Option Int) (nextClicked : Bool) : Int :=
  let afterPrev := prev_button current prevClicked
  let fromInput := number_input_value (entered.getD (afterPrev + 1)) 1 total - 1
  next_button fromInput total nextClicked

/-- The value returned by `st.slider("Zoom", 0.5, 2.0, ..., 0.1)` at line
43 of src/main.py: the widget guarantees its result lies in `[0.5, 2.0]`,
modelled as the clamp of the selected value. -/
def zoom_slider (selected : Rat) : Rat :=
  max (1 / 2) (min selected 2)

/-! ## Helper lemmas about the Excerpt Locator -/

/-- The filter predicate of `locate_pages_containing_excerpts`, spelled
out for reuse in the proofs. -/
def page_is_relevant (document : List Page) (excerpts : List String) (page_num : Nat) : Bool :=
  excerpts.any fun excerpt =>
    !excerpt.isEmpty && !((document.getD page_num emptyPage) excerpt).isEmpty

theorem locate_eq_filter_or_zero (document : List Page) (excerpts : List String) :
    locate_pages_containing_excerpts document excerpts =
      if ((List.range document.length).filter (page_is_relevant document excerpts)).isEmpty
      then [0]
      else (List.range document.length).filter (page_is_relevant document excerpts) := by
  rfl

theorem page_is_relevant_iff (document : List Page) (excerpts : List String) (page_num : Nat) :
    page_is_relevant document excerpts page_num = true ↔
      ∃ excerpt ∈ excerpts, excerpt ≠ "" ∧ (document.getD page_num emptyPage) excerpt ≠ [] := by
  simp only [page_is_relevant, List.any_eq_true, Bool.and_eq_true, Bool.not_eq_true',
    List.isEmpty_eq_false]
  constructor
  · rintro ⟨e, he, h1, h2⟩
    refine ⟨e, he, fun hc => by subst hc; exact absurd h1 (by decide), h2⟩
  · rintro ⟨e, he, h1, h2⟩
    refine ⟨e, he, ?_, h2⟩
    rw [Bool.eq_false_iff]
    intro ht
    exact h1 ((String.isEmpty_iff e).mp ht)

/-- A concrete page used in the witnesses: searching for "foo" matches one
rectangle, every other search is empty. -/
def pageFoo : Page := fun s => if s = "foo" then [⟨1, 2, 3, 4⟩] else []

/-! ## Claim theorems for the Excerpt Locator -/

/-- Claim C1: if no page of the document matches any non-empty excerpt
(including when the excerpt list is empty or holds only empty strings),
`locate_pages_containing_excerpts` returns exactly `[0]` -- never an
empty sequence.  The function is total, so it never raises. -/
theorem locate_pages_no_match_fallback (document : List Page) (excerpts : List String)
    (h : ∀ page ∈ document, ∀ excerpt ∈ excerpts, excerpt ≠ "" → page excerpt = []) :
    locate_pages_containing_excerpts document excerpts = [0] := by
  rw [locate_eq_filter_or_zero]
  have hf : (List.range document.length).filter (page_is_relevant document excerpts) = [] := by
    rw [List.filter_eq_nil_iff]
    intro n hn hrel
    rw [List.mem_range] at hn
    obtain ⟨e, he, hne, hmatch⟩ := (page_is_relevant_iff document excerpts n).mp hrel
    have hmem : document.getD n emptyPage ∈ document := by
      rw [List.getD_eq_getElem _ _ hn]
      exact List.getElem_mem hn
    exact hmatch (h _ hmem e he hne)
  rw [hf]
  rfl

/-- Witness for C1 at a concrete input: a one-page document whose page
matches nothing, with excerpts `["bar", ""]`. -/
theorem locate_pages_no_match_fallback_witness :
    (∀ page ∈ [emptyPage], ∀ excerpt ∈ ["bar", ""], excerpt ≠ "" → page excerpt = []) ∧
    locate_pages_containing_excerpts [emptyPage] ["bar", ""] = [0] := by
  have h : ∀ page ∈ [emptyPage], ∀ excerpt ∈ ["bar", ""], excerpt ≠ "" → page excerpt = [] := by
    intro page hp excerpt _ _
    rw [List.mem_singleton] at hp
    subst hp
    rfl
  exact ⟨h, locate_pages_no_match_fallback [emptyPage] ["bar", ""] h⟩

/-- Claim C2: every page on which some non-empty excerpt matches appears
in the result of `locate_pages_containing_excerpts`, and the result is
sorted in strictly ascending order (hence without duplicates). -/
theorem locate_pages_complete_sorted_nodup (document : List Page) (excerpts : List String) :
    List.Sorted (· < ·) (locate_pages_containing_excerpts document excerpts) ∧
    (locate_pages_containing_excerpts document excerpts).Nodup ∧
    (∀ p, p < document.length → ∀ excerpt ∈ excerpts, excerpt ≠ "" →
      (document.getD p emptyPage) excerpt ≠ [] →
      p ∈ locate_pages_containing_excerpts document excerpts) := by
  rw [locate_eq_filter_or_zero]
  by_cases hemp : ((List.range document.length).filter (page_is_relevant document excerpts)).isEmpty
  · rw [if_pos hemp]
    refine ⟨List.sorted_singleton 0, List.nodup_singleton 0, ?_⟩
    intro p hp e he hne hmatch
    exfalso
    have hrel : page_is_relevant document excerpts p = true :=
      (page_is_relevant_iff document excerpts p).mpr ⟨e, he, hne, hmatch⟩
    have hpmem : p ∈ (List.range document.length).filter (page_is_relevant document excerpts) :=
      List.mem_filter.mpr ⟨List.mem_range.mpr hp, hrel⟩
    rw [List.isEmpty_iff] at hemp
    rw [hemp] at hpmem
    exact absurd hpmem (List.not_mem_nil p)
  · rw [if_neg hemp]
    have hsorted : List.Sorted (· < ·)
        ((List.range document.length).filter (page_is_relevant document excerpts)) :=
      List.Pairwise.sublist (List.filter_sublist _) (List.sorted_lt_range document.length)
    refine ⟨hsorted, hsorted.nodup, ?_⟩
    intro p hp e he hne hmatch
    exact List.mem_filter.mpr
      ⟨List.mem_range.mpr hp, (page_is_relevant_iff document excerpts p).mpr ⟨e, he, hne, hmatch⟩⟩

/-- Witness for C2 at a concrete input: page 1 of a two-page document
matches the excerpt "foo", so 1 is in the result. -/
theorem locate_pages_complete_sorted_nodup_witness :
    (1 : Nat) ∈ locate_pages_containing_excerpts [emptyPage, pageFoo] ["foo"] :=
  (locate_pages_complete_sorted_nodup [emptyPage, pageFoo] ["foo"]).2.2 1 (by decide)
    "foo" (by decide) (by decide) (by decide)

/-- Claim C9: on a zero-page document the fallback `[0]` is returned for
every excerpt list, even though the document has no page of index 0. -/
theorem locate_pages_zero_page_document (excerpts : List String) :
    locate_pages_containing_excerpts [] excerpts = [0] ∧
    ¬ 0 < ([] : List Page).length :=
  ⟨rfl, by decide⟩

/-- Claim C10: the result of `locate_pages_containing_excerpts` depends
only on which non-empty excerpts occur in the list -- permuting,
duplicating, or adding and removing empty strings never changes it. -/
theorem locate_pages_depends_only_on_nonempty_excerpt_set (document : List Page)
    (excerpts1 excerpts2 : List String)
    (h : ∀ excerpt, excerpt ≠ "" → (excerpt ∈ excerpts1 ↔ excerpt ∈ excerpts2)) :
    locate_pages_containing_excerpts document excerpts1 =
      locate_pages_containing_excerpts document excerpts2 := by
  have hrel : ∀ n, page_is_relevant document excerpts1 n = page_is_relevant document excerpts2 n := by
    intro n
    rw [← Bool.coe_iff_coe, page_is_relevant_iff, page_is_relevant_iff]
    constructor
    · rintro ⟨e, he, hne, hm⟩
      exact ⟨e, (h e hne).mp he, hne, hm⟩
    · rintro ⟨e, he, hne, hm⟩
      exact ⟨e, (h e hne).mpr he, hne, hm⟩
  have hfilter : (List.range document.length).filter (page_is_relevant document excerpts1) =
      (List.range document.length).filter (page_is_relevant document excerpts2) :=
    List.filter_congr fun n _ => hrel n
  rw [locate_eq_filter_or_zero, locate_eq_filter_or_zero, hfilter]

/-- Witness for C10 at a concrete input: `["foo", "bar"]` against its
permuted, duplicated variant with an empty string added. -/
theorem locate_pages_depends_only_on_nonempty_excerpt_set_witness :
    (∀ excerpt : String, excerpt ≠ "" →
      (excerpt ∈ ["foo", "bar"] ↔ excerpt ∈ ["bar", "", "foo", "foo"])) ∧
    locate_pages_containing_excerpts [emptyPage, pageFoo] ["foo", "bar"] =
      locate_pages_containing_excerpts [emptyPage, pageFoo] ["bar", "", "foo", "foo"] := by
  have h : ∀ excerpt : String, excerpt ≠ "" →
      (excerpt ∈ ["foo", "bar"] ↔ excerpt ∈ ["bar", "", "foo", "foo"]) := by
    intro e he
    simp only [List.mem_cons, List.not_mem_nil, or_false]
    tauto
  exact ⟨h,
    locate_pages_depends_only_on_nonempty_excerpt_set [emptyPage, pageFoo]
      ["foo", "bar"] ["bar", "", "foo", "foo"] h⟩

/-! ## Claim theorems for highlight generation -/

/-- Claim C3: `generate_highlight_annotations` on a present document is
exactly the flat concatenation, in page order, then excerpt-list order,
then match order, of one annotation per bounding box each non-empty
excerpt matches on each page, with `page` the 0-based index plus 1, the
geometry copied from the box, and the fixed color "yellow".  Since it is
an equality with the triple concatenation, no deduplication happens: two
excerpts matching the same box contribute two annotations. -/
theorem generate_highlight_annotations_one_per_match (pages : List Page) (excerpts : List String) :
    generate_highlight_annotations (some pages) excerpts =
      pages.enum.flatMap fun pe =>
        excerpts.flatMap fun excerpt =>
          if excerpt = "" then []
          else (pe.2 excerpt).map fun inst =>
            { page := pe.1 + 1
              x := inst.x0
              y := inst.y0
              width := inst.x1 - inst.x0
              height := inst.y1 - inst.y0
              color := "yellow" } := by
  show (if pages.isEmpty || excerpts.isEmpty then [] else _) = _
  have hguard : ∀ pe : Nat × Page,
      (excerpts.flatMap fun excerpt =>
        if excerpt.isEmpty then ([] : List Annot)
        else (pe.2 excerpt).map fun inst =>
          { page := pe.1 + 1, x := inst.x0, y := inst.y0, width := inst.x1 - inst.x0,
            height := inst.y1 - inst.y0, color := "yellow" }) =
      (excerpts.flatMap fun excerpt =>
        if excerpt = "" then ([] : List Annot)
        else (pe.2 excerpt).map fun inst =>
          { page := pe.1 + 1, x := inst.x0, y := inst.y0, width := inst.x1 - inst.x0,
            height := inst.y1 - inst.y0, color := "yellow" }) := by
    intro pe
    apply congrArg
    funext excerpt
    by_cases he : excerpt = ""
    · subst he
      rfl
    · rw [if_neg ?_, if_neg he]
      rw [Bool.not_eq_true, Bool.eq_false_iff]
      intro ht
      exact he ((String.isEmpty_iff excerpt).mp ht)
  by_cases hp : pages = []
  · subst hp
    rfl
  · by_cases he : excerpts = []
    · subst he
      have : (pages.enum.flatMap fun pe => ([] : List String).flatMap fun excerpt =>
          if excerpt = "" then ([] : List Annot)
          else (pe.2 excerpt).map fun inst =>
            { page := pe.1 + 1, x := inst.x0, y := inst.y0, width := inst.x1 - inst.x0,
              height := inst.y1 - inst.y0, color := "yellow" }) = [] := by
        simp
      rw [this]
      simp [List.isEmpty_iff]
    · rw [if_neg (by simp [List.isEmpty_iff, hp, he])]
      apply congrArg
      funext pe
      exact hguard pe

/-- Claim C4: with an absent document -- `None`, or an opened document
with zero pages, both falsy in the Python guard -- the function returns
the empty sequence for every excerpt list, and being total it cannot
raise. -/
theorem generate_highlight_annotations_absent_document (excerpts : List String) :
    generate_highlight_annotations none excerpts = [] ∧
    generate_highlight_annotations (some []) excerpts = [] :=
  ⟨rfl, rfl⟩

/-! ## Claim theorems for the structured-answer contract -/

/-- Claim C5: the parsed object of the structured answer string
`{"answer":"A","sources":"foo. bar"}` -- the JSON object with `answer`
the string "A" and `sources` the string "foo. bar" -- produces the
answer turn "A" and the excerpt list `["foo", "bar"]`; in general a
successful parse whose `sources` is a string `s` stores `s` split on the
two-character separator ". ". -/
theorem structured_answer_round_trip (state : SessionState) (user_input : String)
    (a : PyVal) (s : String) :
    (process_chat_submission state user_input
        (.object (some (.str "A")) (some (.str "foo. bar")))).state.sources = ["foo", "bar"] ∧
    (process_chat_submission state user_input
        (.object (some (.str "A")) (some (.str "foo. bar")))).state.chat_history =
      state.chat_history ++
        [{ role := "user", content := .str user_input },
         { role := "assistant", content := .str "A" }] ∧
    (process_chat_submission state user_input
        (.object (some (.str "A")) (some (.str "foo. bar")))).error = none ∧
    (process_chat_submission state user_input
        (.object (some a) (some (.str s)))).state.sources = py_split s ". " := by
  refine ⟨?_, ?_, rfl, rfl⟩
  · show py_split "foo. bar" ". " = ["foo", "bar"]
    decide
  · show (state.chat_history ++ [{ role := "user", content := .str user_input }]) ++
        [{ role := "assistant", content := .str "A" }] = _
    rw [List.append_assoc]
    rfl

/-- Counterexample to claim C6: when the parse succeeds but the object
has no `sources` key, the subscript raises `KeyError`, which the generic
`except Exception` branch reports -- the excerpt list is NOT set to `[]`
(here it stays `["old"]`) and an error outcome does occur, contrary to
the claim that the empty list is the only outcome. -/
theorem sources_key_absent_is_error :
    (process_chat_submission { chat_history := [], sources := ["old"], chat_occurred := false }
        "q" (.object (some (.str "A")) none)).error = some .otherError ∧
    (process_chat_submission { chat_history := [], sources := ["old"], chat_occurred := false }
        "q" (.object (some (.str "A")) none)).state.sources = ["old"] :=
  ⟨rfl, rfl⟩

/-- Claim C6 as amended: a null `sources` (with the `answer` key present)
yields the empty excerpt list and no error; an absent `sources` key
instead raises `KeyError`, caught by the generic handler: the error is
reported and the stored excerpt list is left unchanged. -/
theorem sources_null_empty_absent_error (state : SessionState) (user_input : String) (a : PyVal) :
    (process_chat_submission state user_input (.object (some a) (some .null))).state.sources = [] ∧
    (process_chat_submission state user_input (.object (some a) (some .null))).error = none ∧
    (process_chat_submission state user_input (.object (some a) none)).error = some .otherError ∧
    (process_chat_submission state user_input (.object (some a) none)).state.sources =
      state.sources :=
  ⟨rfl, rfl, rfl, rfl⟩

/-- Claim C7: when the model output is not parseable as JSON, the step
reports the distinct parse-error kind (`json.JSONDecodeError` has its own
handler, separate from the generic one), the session survives (the step
is a total function and `chat_occurred` is untouched), and the state is
exactly the old state with only the just-submitted user turn appended: prior chat
history and the stored sources list are unmodified. -/
theorem parse_failure_reports_and_preserves_state (state : SessionState) (user_input : String) :
    process_chat_submission state user_input .notJson =
      { state :=
          { chat_history := state.chat_history ++ [{ role := "user", content := .str user_input }]
            sources := state.sources
            chat_occurred := state.chat_occurred }
        error := some .parseError } ∧
    ErrKind.parseError ≠ ErrKind.otherError :=
  ⟨rfl, by decide⟩

/-! ## Claim theorems for navigation and zoom -/

/-- Bounds of the modelled `number_input` widget value. -/
theorem number_input_value_bounds (entered total : Int) (h : 1 ≤ total) :
    1 ≤ number_input_value entered 1 total ∧ number_input_value entered 1 total ≤ total := by
  unfold number_input_value
  exact ⟨le_max_left 1 _, max_le h (min_le_right entered total)⟩

/-- Claim C8: after one rerun of the navigation row of src/main.py the
0-based current page lies in `[0, total - 1]` (whether Previous or Next
was clicked, whatever was typed into the page box, and whatever the page
was before), the 1-based page-number value is clamped to `[1, total]`,
and the zoom value returned by the slider lies in `[0.5, 2.0]`.  The
hypothesis `1 ≤ total` reflects that the navigation row is only rendered
for an opened document. -/
theorem navigation_and_zoom_clamped (current total typed : Int)
    (prevClicked nextClicked : Bool) (entered : Option Int) (selected : Rat)
    (h : 1 ≤ total) :
    (0 ≤ navigation_step current total prevClicked entered nextClicked ∧
      navigation_step current total prevClicked entered nextClicked ≤ total - 1) ∧
    (1 ≤ number_input_value typed 1 total ∧ number_input_value typed 1 total ≤ total) ∧
    (1 / 2 ≤ zoom_slider selected ∧ zoom_slider selected ≤ 2) := by
  refine ⟨?_, number_input_value_bounds typed total h, ?_⟩
  · obtain ⟨h1, h2⟩ :=
      number_input_value_bounds (entered.getD (prev_button current prevClicked + 1)) total h
    unfold navigation_step next_button
    dsimp only
    split_ifs with hc
    · omega
    · omega
  · unfold zoom_slider
    refine ⟨le_max_left _ _, max_le (by norm_num) (min_le_right _ _)⟩

/-- Witness for C8 at a concrete input: a stale out-of-range current page
5 on a 3-page document, both buttons clicked, 99 typed into the page box,
zoom dragged to 7. -/
theorem navigation_and_zoom_clamped_witness :
    (1 : Int) ≤ 3 ∧
    ((0 ≤ navigation_step 5 3 true (some 99) true ∧
        navigation_step 5 3 true (some 99) true ≤ 3 - 1) ∧
      (1 ≤ number_input_value 99 1 3 ∧ number_input_value 99 1 3 ≤ 3) ∧
      (1 / 2 ≤ zoom_slider 7 ∧ zoom_slider 7 ≤ 2)) :=
  ⟨by decide, navigation_and_zoom_clamped 5 3 99 true true (some 99) 7 (by decide)⟩

/-- Witness for C9 at a concrete excerpt list. -/
theorem locate_pages_zero_page_document_witness :
    locate_pages_containing_excerpts [] ["revenue grew"] = [0] :=
  (locate_pages_zero_page_document ["revenue grew"]).1

/-- Witness for C7 at a concrete state and input. -/
theorem parse_failure_reports_and_preserves_state_witness :
    (process_chat_submission { chat_history := [], sources := [], chat_occurred := false }
        "hi" .notJson).error = some .parseError := by
  rw [(parse_failure_reports_and_preserves_state
    { chat_history := [], sources := [], chat_occurred := false } "hi").1]
